import Mathlib

/-
Verification of the EIDA WFCatalog collector against its specification.

The development shallowly embeds the parts of the code that the checked
properties speak about:

* the PSD pipeline of `psd-collector/ingestdaily.py` (`_Times`, `_Reduce`,
  `_GetOffset`, `_AsByteArray` and the document-building loop of `Process`),
  with times measured in integer minutes and PSD amplitudes as the truncated
  integer decibel values the code feeds to `int(x) + 255` arithmetic;
* the granule document builder `_getDatabaseKeyMap` (plus `_getTimingQuality`,
  `_getFlags`, `_getFileChecksums`) of `collector/WFCatalogCollector.py`,
  with Python floats carried as rationals and the external metric library's
  record modelled as an explicit `Trace` structure;
* the filter, change-detection and enumeration logic (`_passFilter`,
  `_isNewDocument`, `_filterFiles`, the `--date` branch of `_getFiles`), with
  the filesystem and store accesses (fnmatch, MD5, Mongo lookups) supplied as
  explicit function parameters;
* the layout resolver (`_getStatsObject`, `_getFilename`,
  `_getFileDirectory`, `_getNextFile`), with filenames as `List Char` so that
  splitting on `'.'` and joining path components are exact list operations,
  and the calendar arithmetic of `datetime` as day-of-year successor and
  predecessor functions on the proleptic Gregorian calendar.
-/

namespace WFCatalog

/-! ## PSD pipeline (psd-collector/ingestdaily.py) -/

/-- Stream identity of a file handled by the PSD pipeline
(`filestream.py` `FileStream`): dot-separated fields of the basename plus the
file's start time, modelled in minutes. -/
structure FileStream where
  filename : String
  net : String
  sta : String
  loc : String
  cha : String
  quality : String
  start : Int
deriving DecidableEq

/-- `PSDExtractor._Reduce`: truncated amplitude `x` is shifted by 255 into the
byte range when `-255 <= x <= 0`, and everything else becomes 255. -/
def _Reduce (x : Int) : Int :=
  if -255 ≤ x ∧ x ≤ 0 then x + 255 else 255

/-- The loop of `PSDExtractor._GetOffset`: walk the Boolean mask counting
leading `False` entries; at the first `True` return `[counter - 1]` followed
by the reduced segment, and return `None` when the mask is exhausted. -/
def getOffsetLoop (segment : List Int) (counter : Nat) : List Bool → Option (List Int)
  | [] => none
  | boolean :: rest =>
    if !boolean then getOffsetLoop segment (counter + 1) rest
    else some (((counter : Int) - 1) :: segment.map _Reduce)

/-- `PSDExtractor._GetOffset` with the counter starting at 0. -/
def _GetOffset (segment : List Int) (mask : List Bool) : Option (List Int) :=
  getOffsetLoop segment 0 mask

/-- `PSDExtractor._AsByteArray`: `struct.pack("B", b)` succeeds exactly for
`0 <= b <= 255`; iterating `None` or packing an out-of-range value raises,
which the caller's `try` turns into a skipped segment. -/
def _AsByteArray (array : List Int) : Option (List Int) :=
  if ∀ b ∈ array, 0 ≤ b ∧ b ≤ 255 then some array else none

/-- `PSDExtractor._Times`: 48 times starting at the filestream's start with
30-minute increments. -/
def _Times (start : Int) : List Int :=
  (List.range 48).map (fun (x : Nat) => start + 30 * (x : Int))

/-- One PSD spectrum document as appended to `results` in
`PSDExtractor.Process`. -/
structure PsdDocument where
  net : String
  fileId : String
  sta : String
  loc : String
  cha : String
  warnings : Bool
  ts : Int
  te : Int
  binary : List Int
deriving DecidableEq

/-- The body of the `for segment, time in zip(...)` loop of
`PSDExtractor.Process`: encode the segment (offset byte plus reduced
amplitudes, packed as bytes) and build the document with
`te = ts + timedelta(minutes=60)`; any encoding failure yields `none` and the
segment is skipped. -/
def encodeSegment (fs : FileStream) (warn : Bool) (mask : List Bool)
    (p : List Int × Int) : Option PsdDocument :=
  match (_GetOffset p.1 mask).bind _AsByteArray with
  | none => none
  | some byteAmplitudes => some
      { net := fs.net
        fileId := fs.filename
        sta := fs.sta
        loc := fs.loc
        cha := fs.cha
        warnings := warn
        ts := p.2
        te := p.2 + 60
        binary := byteAmplitudes }

/-- The document-building loop of `PSDExtractor.Process`: zip the binned PSDs
with the 48 half-hour-stride times and keep the successfully encoded
documents. -/
def ProcessSpectra (fs : FileStream) (warn : Bool) (binnedPsds : List (List Int))
    (mask : List Bool) : List PsdDocument :=
  (binnedPsds.zip (_Times fs.start)).filterMap (encodeSegment fs warn mask)

/-- The spec's reading of the offset byte: the index of the first valid
(`True`) frequency bin of the mask, for comparison with `_GetOffset`. -/
def specFirstValidIndex (mask : List Bool) : Nat :=
  mask.findIdx (fun b => b)

/-- The spec's encoding law for one amplitude: `clamp(int(x) + 255, 0, 255)`,
for comparison with `_Reduce`. -/
def specClampByte (x : Int) : Int :=
  max 0 (min (x + 255) 255)

/-! ## Metric pipeline document builder (collector/WFCatalogCollector.py) -/

/-- `os.path.basename` on a path string: the part after the last `/`. -/
def basenameStr (p : String) : String :=
  (p.splitOn "/").getLastD p

/-- One continuous-segment record of the metric library's `c_segments` list
(consumed by `_getDatabaseKeyMapContinuous`; here only its presence counts,
via `nseg`). -/
structure CSegTrace where
  sample_min : Int
  sample_max : Int
  sample_mean : Rat
  sample_median : Rat
  sample_stdev : Rat
  sample_rms : Rat
  sample_upper_quartile : Rat
  sample_lower_quartile : Rat
  num_samples : Int
  sample_rate : Rat
  start_time : Int
  end_time : Int
  segment_length : Rat

/-- The `io_and_clock_flags` sub-record of `miniseed_header_percentages`. -/
structure IoClockFlagsIn where
  station_volume : Rat
  long_record_read : Rat
  short_record_read : Rat
  start_time_series : Rat
  end_time_series : Rat
  clock_locked : Rat

/-- The `data_quality_flags` sub-record of `miniseed_header_percentages`. -/
structure DataQualityFlagsIn where
  amplifier_saturation : Rat
  digitizer_clipping : Rat
  spikes : Rat
  glitches : Rat
  missing_padded_data : Rat
  telemetry_sync_error : Rat
  digital_filter_charging : Rat
  suspect_time_tag : Rat

/-- The `activity_flags` sub-record of `miniseed_header_percentages`. -/
structure ActivityFlagsIn where
  calibration_signal : Rat
  time_correction_applied : Rat
  event_begin : Rat
  event_end : Rat
  event_in_progress : Rat
  positive_leap : Rat
  negative_leap : Rat

/-- The `miniseed_header_percentages` record the metric library returns when
`add_flags` is requested. -/
structure HeaderPercentages where
  timing_correction : Rat
  timing_quality_min : Option Rat
  timing_quality_max : Option Rat
  timing_quality_mean : Option Rat
  timing_quality_median : Option Rat
  timing_quality_upper_quartile : Option Rat
  timing_quality_lower_quartile : Option Rat
  io_and_clock_flags : IoClockFlagsIn
  data_quality_flags : DataQualityFlagsIn
  activity_flags : ActivityFlagsIn

/-- The heterogeneous record returned by `obspy` `MSEEDMetadata` (plus the
`warnings`/`fileId` keys the collector adds before shaping), as read by
`_getDatabaseKeyMap`.  Floats are carried as rationals, times as integers,
nullable values as options. -/
structure Trace where
  warnings : Bool
  fileId : String
  c_segments : Option (List CSegTrace)
  network : String
  station : String
  channel : String
  location : String
  quality : String
  start_time : Int
  end_time : Int
  encoding : String
  sample_rate : Rat
  record_length : Option Int
  num_records : Option Int
  num_samples : Int
  sample_min : Int
  sample_max : Int
  sample_mean : Rat
  sample_median : Rat
  sample_upper_quartile : Rat
  sample_lower_quartile : Rat
  sample_rms : Rat
  sample_stdev : Rat
  num_gaps : Int
  sum_gaps : Rat
  num_overlaps : Int
  sum_overlaps : Rat
  max_gap : Option Rat
  max_overlap : Option Rat
  percent_availability : Rat
  start_gap : Option Rat
  end_gap : Option Rat
  files : List String
  miniseed_header_percentages : Option HeaderPercentages

/-- Output of `_getTimingQuality` (short wire names). -/
structure TimingQuality where
  tcorr : Rat
  tqmin : Option Rat
  tqmax : Option Rat
  tqmean : Option Rat
  tqmedian : Option Rat
  tqupper : Option Rat
  tqlower : Option Rat
deriving DecidableEq

/-- Output of `_getFlagKeys` for `io_and_clock_flags`. -/
structure IoClockFlagsOut where
  svo : Rat
  lrr : Rat
  srr : Rat
  sts : Rat
  ets : Rat
  clo : Rat
deriving DecidableEq

/-- Output of `_getFlagKeys` for `data_quality_flags`. -/
structure DataQualityFlagsOut where
  asa : Rat
  dic : Rat
  spi : Rat
  gli : Rat
  mpd : Rat
  tse : Rat
  dfc : Rat
  stt : Rat
deriving DecidableEq

/-- Output of `_getFlagKeys` for `activity_flags`. -/
structure ActivityFlagsOut where
  cas : Rat
  tca : Rat
  evb : Rat
  eve : Rat
  eip : Rat
  pol : Rat
  nel : Rat
deriving DecidableEq

/-- Output of `_getFlags`: the three flag sub-documents. -/
structure HeaderFlags where
  io_flags : IoClockFlagsOut
  dq_flags : DataQualityFlagsOut
  ac_flags : ActivityFlagsOut
deriving DecidableEq

/-- One `{do?, name, chksm}` entry of a granule's `files` list
(`_getFileChecksums`); `chksm` is `none` when `_getMD5Hash` failed. -/
structure FileEntry where
  dataObject : Option Nat
  name : String
  chksm : Option String
deriving DecidableEq

/-- A daily or hourly granule document as built by `_getDatabaseKeyMap`
(short wire field names); `streamId` is set only for hourly granules, and the
timing-quality and header-flag keys are added only when `--flags` is on. -/
structure GranuleDocument where
  created : Int
  collector : String
  warnings : Bool
  status : String
  format : String
  fileId : String
  type : String
  nseg : Nat
  cont : Bool
  net : String
  sta : String
  cha : String
  loc : String
  qlt : String
  ts : Int
  te : Int
  enc : String
  srate : Rat
  rlen : Option Int
  nrec : Option Int
  nsam : Int
  smin : Int
  smax : Int
  smean : Rat
  smedian : Rat
  supper : Rat
  slower : Rat
  rms : Rat
  stdev : Rat
  ngaps : Int
  glen : Rat
  nover : Int
  olen : Rat
  gmax : Option Rat
  omax : Option Rat
  avail : Rat
  sgap : Bool
  egap : Bool
  streamId : Option Nat
  timing : Option TimingQuality
  headerFlags : Option HeaderFlags
  files : List FileEntry

/-- Ambient inputs of the document builder: configuration values
(`VERSION`, `ENABLE_DUBLIN_CORE`, the `--flags` option), the wall clock, and
the effectful helpers `_getMD5Hash` and `_getFileDataObject` as explicit
functions. -/
structure BuildCtx where
  version : String
  now : Int
  flagsOn : Bool
  enableDublinCore : Bool
  md5 : String → Option String
  dataObjectId : String → Nat

/-- `_getTimingQuality`: the timing correction plus, when
`timing_quality_min` is present, the six timing-quality statistics (all
absent otherwise). -/
def _getTimingQuality (h : HeaderPercentages) : TimingQuality :=
  match h.timing_quality_min with
  | none =>
    { tcorr := h.timing_correction
      tqmin := none, tqmax := none, tqmean := none
      tqmedian := none, tqupper := none, tqlower := none }
  | some _ =>
    { tcorr := h.timing_correction
      tqmin := h.timing_quality_min
      tqmax := h.timing_quality_max
      tqmean := h.timing_quality_mean
      tqmedian := h.timing_quality_median
      tqupper := h.timing_quality_upper_quartile
      tqlower := h.timing_quality_lower_quartile }

/-- `_getFlags` via `_getFlagKeys`: rename the long library keys to the short
wire names. -/
def _getFlags (h : HeaderPercentages) : HeaderFlags :=
  { io_flags :=
      { svo := h.io_and_clock_flags.station_volume
        lrr := h.io_and_clock_flags.long_record_read
        srr := h.io_and_clock_flags.short_record_read
        sts := h.io_and_clock_flags.start_time_series
        ets := h.io_and_clock_flags.end_time_series
        clo := h.io_and_clock_flags.clock_locked }
    dq_flags :=
      { asa := h.data_quality_flags.amplifier_saturation
        dic := h.data_quality_flags.digitizer_clipping
        spi := h.data_quality_flags.spikes
        gli := h.data_quality_flags.glitches
        mpd := h.data_quality_flags.missing_padded_data
        tse := h.data_quality_flags.telemetry_sync_error
        dfc := h.data_quality_flags.digital_filter_charging
        stt := h.data_quality_flags.suspect_time_tag }
    ac_flags :=
      { cas := h.activity_flags.calibration_signal
        tca := h.activity_flags.time_correction_applied
        evb := h.activity_flags.event_begin
        eve := h.activity_flags.event_end
        eip := h.activity_flags.event_in_progress
        pol := h.activity_flags.positive_leap
        nel := h.activity_flags.negative_leap } }

/-- `_getFileChecksums`: one `{name, chksm}` entry per consumed file, with a
data-object reference when `ENABLE_DUBLIN_CORE` is set. -/
def _getFileChecksums (ctx : BuildCtx) (files : List String) : List FileEntry :=
  if ctx.enableDublinCore then
    files.map (fun f => ⟨some (ctx.dataObjectId f), basenameStr f, ctx.md5 f⟩)
  else
    files.map (fun f => ⟨none, basenameStr f, ctx.md5 f⟩)

/-- `_getDatabaseKeyMap`: shape a metric-library trace into a granule
document.  `cont` is `num_gaps == 0` and `ngaps` is `int(num_gaps)`; `nseg`
counts `c_segments or []`; when `--flags` is on the timing quality and header
percentages are merged in (reading `miniseed_header_percentages`, absent from
the trace when the library was not asked for flags, raises — modelled as
`none`). -/
def _getDatabaseKeyMap (ctx : BuildCtx) (trace : Trace) (id : Option Nat) :
    Option GranuleDocument :=
  let nSegments := (trace.c_segments.getD []).length
  let source : GranuleDocument :=
    { created := ctx.now
      collector := ctx.version
      warnings := trace.warnings
      status := "open"
      format := "mSEED"
      fileId := trace.fileId
      type := "seismic"
      nseg := nSegments
      cont := trace.num_gaps == 0
      net := trace.network
      sta := trace.station
      cha := trace.channel
      loc := trace.location
      qlt := trace.quality
      ts := trace.start_time
      te := trace.end_time
      enc := trace.encoding
      srate := trace.sample_rate
      rlen := trace.record_length
      nrec := trace.num_records
      nsam := trace.num_samples
      smin := trace.sample_min
      smax := trace.sample_max
      smean := trace.sample_mean
      smedian := trace.sample_median
      supper := trace.sample_upper_quartile
      slower := trace.sample_lower_quartile
      rms := trace.sample_rms
      stdev := trace.sample_stdev
      ngaps := trace.num_gaps
      glen := trace.sum_gaps
      nover := trace.num_overlaps
      olen := trace.sum_overlaps
      gmax := trace.max_gap
      omax := trace.max_overlap
      avail := trace.percent_availability
      sgap := trace.start_gap.isSome
      egap := trace.end_gap.isSome
      streamId := id
      timing := none
      headerFlags := none
      files := _getFileChecksums ctx trace.files }
  if ctx.flagsOn then
    match trace.miniseed_header_percentages with
    | none => none
    | some h => some
        { source with
            timing := some (_getTimingQuality h)
            headerFlags := some (_getFlags h) }
  else
    some source

/-! ## Filter, change detection and enumeration (WFCatalogCollector) -/

/-- `_passFilter`: walk the whitelist; at the first whitelist match, check the
whole blacklist (the blacklist has precedence) and answer; with no whitelist
match default to `false`.  The glob matcher `fnmatch.fnmatch` is an external
stdlib function, passed in explicitly. -/
def _passFilter (fnmatch : String → String → Bool) (white black : List String)
    (filename : String) : Bool :=
  match white with
  | [] => false
  | white_filter :: rest =>
    if fnmatch filename white_filter then
      if black.any (fun black_filter => fnmatch filename black_filter) then false
      else true
    else _passFilter fnmatch rest black filename

/-- A stored daily-granule document as far as the change detector reads it. -/
structure StoredGranule where
  fileId : String
deriving DecidableEq

/-- `MongoDatabase.getDocumentByFilename`: the daily granules whose `fileId`
equals the file's basename. -/
def getDocumentByFilename (store : List StoredGranule) (file : String) :
    List StoredGranule :=
  store.filter (fun doc => doc.fileId == basenameStr file)

/-- `_isNewDocument`: `true` when the store is disabled or duplicates are
allowed (no lookup happens); otherwise `true` exactly when no daily granule
with this `fileId` exists. -/
def _isNewDocument (mongoEnabled allowDouble : Bool) (store : List StoredGranule)
    (file : String) : Bool :=
  if !mongoEnabled then true
  else if allowDouble then true
  else (getDocumentByFilename store file).length == 0

/-- `_filterFiles`: keep the files passing the white/black filter; on delete
return them as they are; otherwise the process set is the new files plus
(when updating) the changed files, de-duplicated (`set(...)` in the source).
`_getChangedFiles` walks the store and hashes file bytes, so its result is
passed in explicitly. -/
def _filterFiles (fnmatch : String → String → Bool) (white black : List String)
    (mongoEnabled allowDouble : Bool) (delete update : Bool)
    (store : List StoredGranule) (changedFiles : List String)
    (files : List String) : List String :=
  let files := files.filter (fun f => _passFilter fnmatch white black (basenameStr f))
  if delete then files
  else
    let new_files := files.filter (fun f => _isNewDocument mongoEnabled allowDouble store f)
    let changed_files := if update then changedFiles else []
    (new_files ++ changed_files).dedup

/-- The days visited by the `--date --range` branch of `_getFiles`: for
`day in range(abs(n_days))` the day `date + day` when `n_days > 0`, else
`date - day`.  Calendar dates are modelled as integer day numbers, as
`datetime` plus `timedelta(days=...)` shifts them. -/
def daysCollected (date : Int) (n_days : Int) : List Int :=
  (List.range n_days.natAbs).map
    (fun (day : Nat) => if n_days > 0 then date + (day : Int) else date - (day : Int))

/-- The files collected by the `--date --range` branch of `_getFiles`: the
concatenation of `_collectFilesFromDate` (a filesystem walk, passed in
explicitly) over the visited days. -/
def getFilesDate (collect : Int → List String) (date : Int) (n_days : Int) :
    List String :=
  (daysCollected date n_days).flatMap collect

/-! ## Layout resolver (WFCatalogCollector) -/

/-- The `STRUCTURE` configuration value. -/
inductive ArchiveStructure
  | ODC
  | SDS
  | SDSbynet
deriving DecidableEq

/-- The stream-identity dictionary built by `_getStatsObject`; fields are the
raw dot-separated basename fields (`location` and `dtype` stay empty under
ODC, whose dictionary has no such keys). -/
structure StatsObject where
  network : List Char
  station : List Char
  location : List Char
  channel : List Char
  dtype : List Char
  year : List Char
  jday : List Char
deriving DecidableEq

/-- `_getStatsObject`: split the basename on `.` and pop fields from the end
(`jday`, `year`, … in the source's pop order); a basename with too few fields
raises, modelled as `none`. -/
def _getStatsObject (st : ArchiveStructure) (file : List Char) : Option StatsObject :=
  let statsArray := file.splitOn '.'
  match st with
  | .ODC =>
    match statsArray.reverse with
    | jday :: year :: network :: channel :: station :: _ =>
      some ⟨network, station, [], channel, [], year, jday⟩
    | _ => none
  | .SDS | .SDSbynet =>
    match statsArray.reverse with
    | jday :: year :: dtype :: channel :: location :: station :: network :: _ =>
      some ⟨network, station, location, channel, dtype, year, jday⟩
    | _ => none

/-- `_getFilename`: join the identity fields with `.` in the layout's field
order. -/
def _getFilename (st : ArchiveStructure) (stats : StatsObject) : List Char :=
  match st with
  | .ODC =>
    List.intercalate ['.']
      [stats.station, stats.channel, stats.network, stats.year, stats.jday]
  | .SDS | .SDSbynet =>
    List.intercalate ['.']
      [stats.network, stats.station, stats.location, stats.channel, stats.dtype,
        stats.year, stats.jday]

/-- `os.path.join` on relative components: interpose `/`. -/
def joinPath : List (List Char) → List Char
  | [] => []
  | [x] => x
  | x :: y :: rest => x ++ '/' :: joinPath (y :: rest)

/-- `os.path.basename`: the suffix after the last `/`. -/
def basenameOf (p : List Char) : List Char :=
  ((p.reverse).takeWhile (fun c => c != '/')).reverse

/-- `_getFileDirectory`: the full path of the identity's file under the
archive root.  Under SDSbynet the network code is first extended through the
external `fdsnnetextender` table (passed in explicitly; a failed extension
raises), though the source then builds the path from the plain network code. -/
def _getFileDirectory (st : ArchiveStructure)
    (extend : List Char → List Char → Option (List Char)) (root : List Char)
    (stats : StatsObject) : Option (List Char) :=
  match st with
  | .ODC =>
    some (joinPath [root, stats.year, stats.jday, _getFilename .ODC stats])
  | .SDS =>
    some (joinPath [root, stats.year, stats.network, stats.station,
      stats.channel ++ '.' :: stats.dtype, _getFilename .SDS stats])
  | .SDSbynet =>
    (extend stats.network stats.year).map (fun _extnet =>
      joinPath [root, stats.year, stats.network, stats.station,
        stats.channel ++ '.' :: stats.dtype, _getFilename .SDSbynet stats])

/-! ## Calendar arithmetic of `_getNextFile` (datetime + timedelta) -/

/-- Gregorian leap-year rule, as `datetime` implements it. -/
def isLeapYear (y : Nat) : Bool :=
  (y % 4 == 0 && y % 100 != 0) || y % 400 == 0

/-- Number of days in a year. -/
def daysInYear (y : Nat) : Nat :=
  if isLeapYear y then 366 else 365

/-- The next calendar day of a `(year, day-of-year)` pair. -/
def nextDay (p : Nat × Nat) : Nat × Nat :=
  if p.2 < daysInYear p.1 then (p.1, p.2 + 1) else (p.1 + 1, 1)

/-- The previous calendar day of a `(year, day-of-year)` pair. -/
def prevDay (p : Nat × Nat) : Nat × Nat :=
  if 1 < p.2 then (p.1, p.2 - 1) else (p.1 - 1, daysInYear (p.1 - 1))

/-- Advance a date forward by `n` days. -/
def applyNextN : Nat → Nat × Nat → Nat × Nat
  | 0, p => p
  | n + 1, p => applyNextN n (nextDay p)

/-- Move a date backward by `n` days. -/
def applyPrevN : Nat → Nat × Nat → Nat × Nat
  | 0, p => p
  | n + 1, p => applyPrevN n (prevDay p)

/-- `datetime + timedelta(days=direction)` on a `(year, day-of-year)` date. -/
def addDaysDate (p : Nat × Nat) (direction : Int) : Nat × Nat :=
  match direction with
  | .ofNat n => applyNextN n p
  | .negSucc n => applyPrevN (n + 1) p

/-- A parsed stream identity with its date fields in numeric form (the
canonical content of the 4-digit `%Y` and zero-padded 3-digit `%j` strings
`strptime` reads and `strftime` writes back). -/
structure StreamStats where
  network : String
  station : String
  location : String
  channel : String
  dtype : String
  year : Nat
  jday : Nat
deriving DecidableEq

/-- `_getNextFile`'s identity shift: parse the year/julian-day date, move it
by `direction` days, and store it back. -/
def _getNextFileStats (stats : StreamStats) (direction : Int) : StreamStats :=
  let new_date := addDaysDate (stats.year, stats.jday) direction
  { stats with year := new_date.1, jday := new_date.2 }

/-- `%j` rendering: zero-pad the day-of-year to three digits. -/
def fmt3 (n : Nat) : String :=
  if n < 10 then "00" ++ toString n
  else if n < 100 then "0" ++ toString n
  else toString n

/-- `%Y` rendering: zero-pad the year to four digits. -/
def fmt4 (n : Nat) : String :=
  if n < 10 then "000" ++ toString n
  else if n < 100 then "00" ++ toString n
  else if n < 1000 then "0" ++ toString n
  else toString n

/-- Render a numeric identity back to the raw string fields used for path
construction. -/
def renderStats (s : StreamStats) : StatsObject :=
  { network := s.network.data
    station := s.station.data
    location := s.location.data
    channel := s.channel.data
    dtype := s.dtype.data
    year := (fmt4 s.year).data
    jday := (fmt3 s.jday).data }

/-! ## Concrete evaluation inputs -/

/-- A concrete builder context: flags off, Dublin Core off. -/
def sampleCtx : BuildCtx :=
  { version := "1.0.0"
    now := 0
    flagsOn := false
    enableDublinCore := false
    md5 := fun _ => none
    dataObjectId := fun _ => 0 }

/-- A concrete metric-library trace for one day of `NL.HGN.02.BHZ.D.2023.100`. -/
def sampleTrace : Trace :=
  { warnings := false
    fileId := "NL.HGN.02.BHZ.D.2023.100"
    c_segments := none
    network := "NL"
    station := "HGN"
    channel := "BHZ"
    location := "02"
    quality := "D"
    start_time := 0
    end_time := 1440
    encoding := "STEIM2"
    sample_rate := 40
    record_length := some 512
    num_records := some 100
    num_samples := 3456000
    sample_min := -1000
    sample_max := 1000
    sample_mean := 0
    sample_median := 0
    sample_upper_quartile := 10
    sample_lower_quartile := -10
    sample_rms := 5
    sample_stdev := 5
    num_gaps := 0
    sum_gaps := 0
    num_overlaps := 0
    sum_overlaps := 0
    max_gap := none
    max_overlap := none
    percent_availability := 100
    start_gap := none
    end_gap := none
    files := ["NL.HGN.02.BHZ.D.2023.100"]
    miniseed_header_percentages := none }

/-- A concrete PSD filestream starting at minute 0. -/
def sampleFileStream : FileStream :=
  ⟨"NL.HGN.02.BHZ.D.2023.100", "NL", "HGN", "02", "BHZ", "D", 0⟩

/-- The document `ProcessSpectra sampleFileStream false [[0]] [false, true]`
produces: offset byte 0, amplitude byte 255, first window `[0, 60)`. -/
def sampleDoc : PsdDocument :=
  ⟨"NL", "NL.HGN.02.BHZ.D.2023.100", "HGN", "02", "BHZ", false, 0, 60, [0, 255]⟩

/-- A concrete numeric stream identity on January 1st 2024. -/
def sampleStats : StreamStats :=
  ⟨"NL", "HGN", "02", "BHZ", "D", 2024, 1⟩

/-! ## Helper lemmas -/

/-- `_passFilter` as a Boolean combination: some whitelist pattern matches and
no blacklist pattern does. -/
theorem passFilter_eq_any (fnmatch : String → String → Bool)
    (white black : List String) (filename : String) :
    _passFilter fnmatch white black filename =
      (white.any (fun w => fnmatch filename w) &&
        !(black.any (fun b => fnmatch filename b))) := by
  induction white with
  | nil => simp [_passFilter]
  | cons w rest ih =>
    simp only [_passFilter, List.any_cons]
    by_cases hw : fnmatch filename w = true
    · simp only [hw, if_true, Bool.true_or]
      cases black.any (fun b => fnmatch filename b) <;> simp
    · simp only [Bool.not_eq_true] at hw
      simp [hw, ih]

/-- `_isNewDocument` ignores the store when duplicates are allowed. -/
theorem isNewDocument_allowDouble (mongoEnabled : Bool)
    (store : List StoredGranule) (file : String) :
    _isNewDocument mongoEnabled true store file = true := by
  cases mongoEnabled <;> rfl

/-! ## Claim C8 -/

/-- Claim C8: for every filename and every configuration of WHITE and BLACK
glob pattern lists, `_passFilter` passes the filename if and only if it
matches at least one WHITE pattern and matches no BLACK pattern. -/
theorem C8_passFilter_iff (fnmatch : String → String → Bool)
    (white black : List String) (filename : String) :
    _passFilter fnmatch white black filename = true ↔
      ((∃ w ∈ white, fnmatch filename w = true) ∧
        ∀ b ∈ black, fnmatch filename b = false) := by
  rw [passFilter_eq_any]
  simp [List.any_eq_true, Bool.not_eq_true]

/-! ## Claim C9 -/

/-- Claim C9: when ALLOW_DOUBLE is set, the is-new check against the store is
skipped — `_isNewDocument` answers `true` whatever the store holds — and the
process set built by `_filterFiles` contains every filter-passing candidate
and is independent of the store's daily granules. -/
theorem C9_allowDouble_processes_all (fnmatch : String → String → Bool)
    (white black : List String) (mongoEnabled update : Bool)
    (store store' : List StoredGranule) (changedFiles files : List String)
    (f : String) :
    (_isNewDocument mongoEnabled true store f = true) ∧
    (f ∈ files → _passFilter fnmatch white black (basenameStr f) = true →
      f ∈ _filterFiles fnmatch white black mongoEnabled true false update
        store changedFiles files) ∧
    (_filterFiles fnmatch white black mongoEnabled true false update
        store changedFiles files =
      _filterFiles fnmatch white black mongoEnabled true false update
        store' changedFiles files) := by
  have hnew : ∀ (s : List StoredGranule) (xs : List String),
      xs.filter (fun x => _isNewDocument mongoEnabled true s x) = xs := by
    intro s xs
    exact List.filter_eq_self.mpr (fun a _ => isNewDocument_allowDouble mongoEnabled s a)
  refine ⟨isNewDocument_allowDouble mongoEnabled store f, ?_, ?_⟩
  · intro hmem hpass
    unfold _filterFiles
    simp only [if_false, Bool.false_eq_true, hnew]
    rw [List.mem_dedup, List.mem_append]
    exact Or.inl (List.mem_filter.mpr ⟨hmem, hpass⟩)
  · unfold _filterFiles
    simp only [if_false, Bool.false_eq_true, hnew]

/-- Witness for C9: a candidate whose `fileId` already has a stored daily
granule is still classified for processing when duplicates are allowed. -/
theorem C9_allowDouble_processes_all_witness :
    ("f" ∈ ["f"] ∧
      _passFilter (fun _ _ => true) ["*"] [] (basenameStr "f") = true) ∧
    "f" ∈ _filterFiles (fun _ _ => true) ["*"] [] true true false false
        [⟨"f"⟩] [] ["f"] :=
  ⟨⟨by decide, by decide⟩,
    (C9_allowDouble_processes_all (fun _ _ => true) ["*"] [] true false
        [⟨"f"⟩] [] [] ["f"] "f").2.1 (by decide) (by decide)⟩

/-! ## Claim C5 -/

/-- Claim C5 (amended): in date mode with range N, the enumerator visits each
day in `[date, date+N)` when N is positive, and each day in `(date+N, date]`
when N is negative — `|N|` days, the endpoint `date+N` itself excluded — and
collects exactly the files of the visited days. -/
theorem C5_date_range_days (date n_days d : Int) :
    (0 < n_days →
      (d ∈ daysCollected date n_days ↔ date ≤ d ∧ d < date + n_days)) ∧
    (n_days < 0 →
      (d ∈ daysCollected date n_days ↔ date + n_days < d ∧ d ≤ date)) ∧
    (∀ (collect : Int → List String) (x : String),
      x ∈ getFilesDate collect date n_days ↔
        ∃ day ∈ daysCollected date n_days, x ∈ collect day) := by
  have hmem : d ∈ daysCollected date n_days ↔
      ∃ a : Nat, a ∈ List.range n_days.natAbs ∧
        (if n_days > 0 then date + (a : Int) else date - (a : Int)) = d := by
    unfold daysCollected
    exact List.mem_map
  refine ⟨?_, ?_, ?_⟩
  · intro hn
    rw [hmem]
    constructor
    · rintro ⟨i, hi, rfl⟩
      rw [List.mem_range] at hi
      rw [if_pos hn]
      omega
    · intro ⟨h1, h2⟩
      refine ⟨(d - date).toNat, List.mem_range.mpr (by omega), ?_⟩
      rw [if_pos hn]
      omega
  · intro hn
    have hnn : ¬n_days > 0 := by omega
    rw [hmem]
    constructor
    · rintro ⟨i, hi, rfl⟩
      rw [List.mem_range] at hi
      rw [if_neg hnn]
      omega
    · intro ⟨h1, h2⟩
      refine ⟨(date - d).toNat, List.mem_range.mpr (by omega), ?_⟩
      rw [if_neg hnn]
      omega
  · intro collect x
    simp [getFilesDate, List.mem_flatMap]

/-- Counterexample for C5 as stated: with `date = 0` and `range = -1` the
claimed window `[date+N, date]` contains day `-1`, but the enumerator never
visits it (it visits `[0, 0]` only). -/
theorem C5_date_range_days_counterexample :
    ((0 : Int) + (-1) ≤ -1 ∧ (-1 : Int) ≤ 0) ∧
      ¬((-1 : Int) ∈ daysCollected 0 (-1)) := by
  decide

/-- Witness for C5: concrete positive and negative ranges. -/
theorem C5_date_range_days_witness :
    ((0 : Int) < 2 ∧
      ((3 : Int) ∈ daysCollected 2 2 ↔ (2 : Int) ≤ 3 ∧ (3 : Int) < 2 + 2)) ∧
    ((-2 : Int) < 0 ∧
      ((1 : Int) ∈ daysCollected 2 (-2) ↔ (2 : Int) + (-2) < 1 ∧ (1 : Int) ≤ 2)) :=
  ⟨⟨by decide, (C5_date_range_days 2 2 3).1 (by decide)⟩,
    ⟨by decide, (C5_date_range_days 2 (-2) 1).2.1 (by decide)⟩⟩

/-! ## Claim C4 -/

/-- Claim C4 (amended): the encoded byte is `int(x) + 255` exactly when
`-255 <= int(x) <= 0` and 255 otherwise — the spec's
`clamp(int(x) + 255, 0, 255)` for values of at least `-255`, but values below
`-255` saturate to 255, not to the clamp's 0. -/
theorem C4_reduce_clamp (x : Int) :
    _Reduce x = if x < -255 then 255 else specClampByte x := by
  unfold _Reduce specClampByte
  split_ifs <;> omega

/-- Counterexample for C4 as stated: at `x = -300` the code returns 255 while
`clamp(int(x) + 255, 0, 255)` is 0. -/
theorem C4_reduce_clamp_counterexample :
    _Reduce (-300) ≠ specClampByte (-300) := by
  decide

/-! ## Claim C3 -/

/-- Claim C3 (amended): `_GetOffset` succeeds exactly when the validity mask
holds a `True`, and then the leading value of the encoded segment is the
index of the first `True` entry MINUS ONE (so a mask whose first bin is valid
yields `-1`, which the byte packing then rejects), followed by the reduced
amplitudes. -/
theorem C3_offset_first_valid (segment : List Int) (mask : List Bool) :
    _GetOffset segment mask =
      if mask.any (fun b => b) then
        some (((specFirstValidIndex mask : Int) - 1) :: segment.map _Reduce)
      else none := by
  have loop : ∀ (m : List Bool) (counter : Nat),
      getOffsetLoop segment counter m =
        if m.any (fun b => b) then
          some ((((counter + m.findIdx (fun b => b) : Nat) : Int) - 1)
            :: segment.map _Reduce)
        else none := by
    intro m
    induction m with
    | nil => intro c; simp [getOffsetLoop]
    | cons b rest ih =>
      intro c
      cases b
      · rw [show getOffsetLoop segment c (false :: rest)
              = getOffsetLoop segment (c + 1) rest from rfl, ih (c + 1)]
        simp only [List.any_cons, Bool.false_or, List.findIdx_cons, cond_false]
        split
        · congr 2
          omega
        · rfl
      · simp [getOffsetLoop, List.findIdx_cons]
  rw [_GetOffset, loop mask 0, specFirstValidIndex]
  simp

/-- Counterexample for C3 as stated: for the mask `[False, False, True]` the
first valid bin has index 2, but the leading encoded value is 1. -/
theorem C3_offset_first_valid_counterexample :
    (_GetOffset [] [false, false, true]).bind List.head? ≠
      some ((specFirstValidIndex [false, false, true] : Nat) : Int) := by
  decide

/-! ## Claim C2 -/

/-- Claim C2 (amended): every PSD spectrum document has `te = ts + 60`
minutes (hour-long windows), with the 48 windows starting at the file's start
time at a fixed 30-minute stride. -/
theorem C2_psd_window_bounds (fs : FileStream) (warn : Bool)
    (binnedPsds : List (List Int)) (mask : List Bool) (d : PsdDocument)
    (h : d ∈ ProcessSpectra fs warn binnedPsds mask) :
    d.te = d.ts + 60 ∧
    (∃ k : Nat, k < 48 ∧ d.ts = fs.start + 30 * (k : Int)) ∧
    (_Times fs.start).length = 48 := by
  obtain ⟨⟨seg, t⟩, hmem, henc⟩ := List.mem_filterMap.mp h
  have ht : t ∈ _Times fs.start := (List.of_mem_zip hmem).2
  have htk : ∃ k : Nat, k < 48 ∧ fs.start + 30 * (k : Int) = t := by
    have : t ∈ _Times fs.start ↔
        ∃ k : Nat, k ∈ List.range 48 ∧ fs.start + 30 * (k : Int) = t := by
      unfold _Times
      exact List.mem_map
    obtain ⟨k, hk, hkt⟩ := this.mp ht
    exact ⟨k, List.mem_range.mp hk, hkt⟩
  have hd : d.ts = t ∧ d.te = t + 60 := by
    unfold encodeSegment at henc
    split at henc
    · exact absurd henc (by simp)
    · cases henc
      exact ⟨rfl, rfl⟩
  obtain ⟨k, hk, hkt⟩ := htk
  refine ⟨by omega, ⟨k, hk, by omega⟩, ?_⟩
  simp [_Times]

/-- Counterexample for C2 as stated: the first emitted document of a concrete
file has `ts = 0` and `te = 60`, not `te = ts + 30`. -/
theorem C2_psd_window_bounds_counterexample :
    ¬ ∀ d ∈ ProcessSpectra sampleFileStream false [[0]] [false, true],
        d.te = d.ts + 30 := by
  decide

/-- Witness for C2: the concrete document produced from one segment. -/
theorem C2_psd_window_bounds_witness :
    sampleDoc ∈ ProcessSpectra sampleFileStream false [[0]] [false, true] ∧
    (sampleDoc.te = sampleDoc.ts + 60 ∧
      (∃ k : Nat, k < 48 ∧ sampleDoc.ts = sampleFileStream.start + 30 * (k : Int)) ∧
      (_Times sampleFileStream.start).length = 48) :=
  ⟨by decide,
    C2_psd_window_bounds sampleFileStream false [[0]] [false, true] sampleDoc
      (by decide)⟩

/-! ## Claim C10 -/

/-- Claim C10: a segment whose validity mask holds no `True` makes
`_GetOffset` return `None`, so its encoding fails and it is skipped without a
document (with an all-`False` mask nothing at all is emitted); a segment that
does encode contributes its document even when other segments fail, and a
file never yields more than 48 documents. -/
theorem C10_empty_mask_skips_segment :
    (∀ (segment : List Int) (mask : List Bool),
      mask.any (fun b => b) = false → _GetOffset segment mask = none) ∧
    (∀ (fs : FileStream) (warn : Bool) (binnedPsds : List (List Int))
        (mask : List Bool),
      mask.any (fun b => b) = false → ProcessSpectra fs warn binnedPsds mask = []) ∧
    (∀ (fs : FileStream) (warn : Bool) (binnedPsds : List (List Int))
        (mask : List Bool) (p : List Int × Int) (doc : PsdDocument),
      p ∈ binnedPsds.zip (_Times fs.start) →
      encodeSegment fs warn mask p = some doc →
      doc ∈ ProcessSpectra fs warn binnedPsds mask) ∧
    (∀ (fs : FileStream) (warn : Bool) (binnedPsds : List (List Int))
        (mask : List Bool),
      (ProcessSpectra fs warn binnedPsds mask).length ≤ 48) := by
  have hnone : ∀ (segment : List Int) (mask : List Bool),
      mask.any (fun b => b) = false → _GetOffset segment mask = none := by
    intro segment mask h
    unfold _GetOffset
    induction mask with
    | nil => rfl
    | cons b rest ih =>
      cases b
      · rw [List.any_cons] at h
        simp only [Bool.false_or] at h
        rw [show getOffsetLoop segment 0 (false :: rest)
              = getOffsetLoop segment 1 rest from rfl]
        have loop : ∀ (m : List Bool), m.any (fun b => b) = false →
            ∀ c : Nat, getOffsetLoop segment c m = none := by
          intro m hm
          induction m with
          | nil => intro c; rfl
          | cons b' rest' ih' =>
            intro c
            cases b'
            · rw [List.any_cons] at hm
              simp only [Bool.false_or] at hm
              rw [show getOffsetLoop segment c (false :: rest')
                    = getOffsetLoop segment (c + 1) rest' from rfl]
              exact ih' hm (c + 1)
            · simp at hm
        exact loop rest h 1
      · simp at h
  refine ⟨hnone, ?_, ?_, ?_⟩
  · intro fs warn binnedPsds mask h
    unfold ProcessSpectra
    apply List.filterMap_eq_nil_iff.mpr
    intro p _
    unfold encodeSegment
    rw [hnone p.1 mask h]
    rfl
  · intro fs warn binnedPsds mask p doc hp henc
    exact List.mem_filterMap.mpr ⟨p, hp, henc⟩
  · intro fs warn binnedPsds mask
    calc (ProcessSpectra fs warn binnedPsds mask).length
        ≤ (binnedPsds.zip (_Times fs.start)).length :=
          List.length_filterMap_le _ _
      _ ≤ (_Times fs.start).length := by
          rw [List.length_zip]
          omega
      _ = 48 := by simp [_Times]

/-- Witness for C10: a no-`True` mask yields no offset list and no documents,
while a good mask still emits its document. -/
theorem C10_empty_mask_skips_segment_witness :
    _GetOffset [0] [false, false] = none ∧
    ProcessSpectra sampleFileStream false [[0]] [false, false] = [] ∧
    sampleDoc ∈ ProcessSpectra sampleFileStream false [[0]] [false, true] :=
  ⟨C10_empty_mask_skips_segment.1 [0] [false, false] (by decide),
    C10_empty_mask_skips_segment.2.1 sampleFileStream false [[0]] [false, false]
      (by decide),
    C10_empty_mask_skips_segment.2.2.1 sampleFileStream false [[0]] [false, true]
      ([0], 0) sampleDoc (by decide) (by decide)⟩

/-! ## Claim C1 -/

/-- Claim C1: every daily or hourly granule document built by
`_getDatabaseKeyMap` has `cont = true` if and only if `ngaps = 0` — both
fields are computed from the same `num_gaps` value of the trace. -/
theorem C1_cont_iff_ngaps_zero (ctx : BuildCtx) (trace : Trace)
    (id : Option Nat) (doc : GranuleDocument)
    (h : _getDatabaseKeyMap ctx trace id = some doc) :
    doc.cont = true ↔ doc.ngaps = 0 := by
  unfold _getDatabaseKeyMap at h
  split at h
  · split at h
    · exact absurd h (by simp)
    · cases h
      simp
  · cases h
    simp

/-- Witness for C1: the builder evaluated on a concrete context and trace. -/
theorem C1_cont_iff_ngaps_zero_witness :
    ∃ doc, _getDatabaseKeyMap sampleCtx sampleTrace none = some doc ∧
      (doc.cont = true ↔ doc.ngaps = 0) :=
  ⟨_, rfl, C1_cont_iff_ngaps_zero sampleCtx sampleTrace none _ rfl⟩

/-! ## Claim C6 -/

/-- `takeWhile` never runs past an element that fails the predicate. -/
theorem takeWhile_append_sep (p : Char → Bool) (sep : Char)
    (hsep : p sep = false) (l r : List Char) :
    List.takeWhile p (l ++ sep :: r) = List.takeWhile p l := by
  induction l with
  | nil => simp [List.takeWhile_cons, hsep]
  | cons a t ih =>
    cases hpa : p a <;> simp [List.takeWhile_cons, hpa, ih]

/-- `takeWhile` keeps a list all of whose elements satisfy the predicate. -/
theorem takeWhile_of_all (p : Char → Bool) :
    ∀ l : List Char, (∀ c ∈ l, p c = true) → List.takeWhile p l = l := by
  intro l h
  induction l with
  | nil => rfl
  | cons a t ih =>
    rw [List.takeWhile_cons, h a (by simp)]
    rw [ih (fun c hc => h c (by simp [hc]))]
    simp

/-- The basename of a path ignores everything before a separator. -/
theorem basenameOf_append_slash (x t : List Char) :
    basenameOf (x ++ '/' :: t) = basenameOf t := by
  unfold basenameOf
  rw [List.reverse_append, List.reverse_cons, List.append_assoc,
    List.singleton_append,
    takeWhile_append_sep (fun c => c != '/') '/' (by simp) t.reverse x.reverse]

/-- A slash-free list is its own basename. -/
theorem basenameOf_no_slash (f : List Char) (hf : '/' ∉ f) : basenameOf f = f := by
  unfold basenameOf
  rw [takeWhile_of_all (fun c => c != '/') f.reverse
    (fun c hc => by
      have : c ∈ f := List.mem_reverse.mp hc
      simp only [bne_iff_ne, ne_eq]
      exact fun heq => hf (heq ▸ this)),
    List.reverse_reverse]

/-- `joinPath` on at least two components peels off the head. -/
theorem joinPath_cons (x : List Char) (xs : List (List Char)) (hxs : xs ≠ []) :
    joinPath (x :: xs) = x ++ '/' :: joinPath xs := by
  cases xs with
  | nil => exact absurd rfl hxs
  | cons y ys => rfl

/-- The basename of a joined path is its last component, when that component
is slash-free. -/
theorem basenameOf_joinPath (f : List Char) (hf : '/' ∉ f) :
    ∀ comps : List (List Char), basenameOf (joinPath (comps ++ [f])) = f := by
  intro comps
  induction comps with
  | nil => simpa [joinPath] using basenameOf_no_slash f hf
  | cons c cs ih =>
    rw [List.cons_append, joinPath_cons c (cs ++ [f]) (by simp),
      basenameOf_append_slash, ih]

/-- Claim C6: for every well-formed basename under each supported layout
(5 dot-separated fields for ODC, 7 for SDS and SDS-by-net), parsing the
basename with `_getStatsObject` and rebuilding the path with
`_getFileDirectory` yields a path whose basename is the original basename. -/
theorem C6_parse_toPath_roundtrip :
    (∀ (extend : List Char → List Char → Option (List Char))
        (root file a b c d e : List Char), '/' ∉ file →
      file.splitOn '.' = [a, b, c, d, e] →
      ((_getStatsObject .ODC file).bind
          (_getFileDirectory .ODC extend root)).map basenameOf = some file) ∧
    (∀ (extend : List Char → List Char → Option (List Char))
        (root file a b c d e f g : List Char), '/' ∉ file →
      file.splitOn '.' = [a, b, c, d, e, f, g] →
      ((_getStatsObject .SDS file).bind
          (_getFileDirectory .SDS extend root)).map basenameOf = some file) ∧
    (∀ (extend : List Char → List Char → Option (List Char))
        (root file a b c d e f g v : List Char), '/' ∉ file →
      file.splitOn '.' = [a, b, c, d, e, f, g] →
      extend a f = some v →
      ((_getStatsObject .SDSbynet file).bind
          (_getFileDirectory .SDSbynet extend root)).map basenameOf = some file) := by
  refine ⟨?_, ?_, ?_⟩
  · intro extend root file a b c d e hslash hsplit
    have hname : _getFilename .ODC ⟨c, a, [], b, [], d, e⟩ = file := by
      rw [show _getFilename .ODC ⟨c, a, [], b, [], d, e⟩
            = List.intercalate ['.'] [a, b, c, d, e] from rfl, ← hsplit]
      exact List.intercalate_splitOn file '.'
    unfold _getStatsObject
    rw [hsplit]
    show some (basenameOf
        (joinPath [root, d, e, _getFilename .ODC ⟨c, a, [], b, [], d, e⟩]))
      = some file
    rw [hname]
    exact congrArg some (basenameOf_joinPath file hslash [root, d, e])
  · intro extend root file a b c d e f g hslash hsplit
    have hname : _getFilename .SDS ⟨a, b, c, d, e, f, g⟩ = file := by
      rw [show _getFilename .SDS ⟨a, b, c, d, e, f, g⟩
            = List.intercalate ['.'] [a, b, c, d, e, f, g] from rfl, ← hsplit]
      exact List.intercalate_splitOn file '.'
    unfold _getStatsObject
    rw [hsplit]
    show some (basenameOf (joinPath [root, f, a, b, d ++ '.' :: e,
        _getFilename .SDS ⟨a, b, c, d, e, f, g⟩])) = some file
    rw [hname]
    exact congrArg some
      (basenameOf_joinPath file hslash [root, f, a, b, d ++ '.' :: e])
  · intro extend root file a b c d e f g v hslash hsplit hext
    have hname : _getFilename .SDSbynet ⟨a, b, c, d, e, f, g⟩ = file := by
      rw [show _getFilename .SDSbynet ⟨a, b, c, d, e, f, g⟩
            = List.intercalate ['.'] [a, b, c, d, e, f, g] from rfl, ← hsplit]
      exact List.intercalate_splitOn file '.'
    unfold _getStatsObject
    rw [hsplit]
    show Option.map basenameOf ((extend a f).map (fun _extnet =>
        joinPath [root, f, a, b, d ++ '.' :: e,
          _getFilename .SDSbynet ⟨a, b, c, d, e, f, g⟩])) = some file
    rw [hext, hname]
    show some (basenameOf (joinPath [root, f, a, b, d ++ '.' :: e, file]))
      = some file
    exact congrArg some
      (basenameOf_joinPath file hslash [root, f, a, b, d ++ '.' :: e])

/-- Witness for C6: concrete ODC, SDS and SDSbynet basenames. -/
theorem C6_parse_toPath_roundtrip_witness :
    (((_getStatsObject .ODC ("HGN.BHZ.NL.2023.100").data).bind
        (_getFileDirectory .ODC (fun _ _ => some []) ("root").data)).map basenameOf
      = some ("HGN.BHZ.NL.2023.100").data) ∧
    (((_getStatsObject .SDS ("NL.HGN.02.BHZ.D.2023.100").data).bind
        (_getFileDirectory .SDS (fun _ _ => some []) ("root").data)).map basenameOf
      = some ("NL.HGN.02.BHZ.D.2023.100").data) ∧
    (((_getStatsObject .SDSbynet ("NL.HGN.02.BHZ.D.2023.100").data).bind
        (_getFileDirectory .SDSbynet (fun _ _ => some []) ("root").data)).map basenameOf
      = some ("NL.HGN.02.BHZ.D.2023.100").data) :=
  ⟨C6_parse_toPath_roundtrip.1 (fun _ _ => some []) ("root").data
      ("HGN.BHZ.NL.2023.100").data
      ("HGN").data ("BHZ").data ("NL").data ("2023").data ("100").data
      (by decide) (by decide),
    C6_parse_toPath_roundtrip.2.1 (fun _ _ => some []) ("root").data
      ("NL.HGN.02.BHZ.D.2023.100").data
      ("NL").data ("HGN").data ("02").data ("BHZ").data ("D").data
      ("2023").data ("100").data (by decide) (by decide),
    C6_parse_toPath_roundtrip.2.2 (fun _ _ => some []) ("root").data
      ("NL.HGN.02.BHZ.D.2023.100").data
      ("NL").data ("HGN").data ("02").data ("BHZ").data ("D").data
      ("2023").data ("100").data [] (by decide) (by decide) rfl⟩

/-! ## Claim C7 -/

/-- Every year has at least 365 days. -/
theorem daysInYear_pos (y : Nat) : 365 ≤ daysInYear y := by
  unfold daysInYear
  split <;> omega

/-- Going back one day and then forward one day is the identity on valid
dates. -/
theorem nextDay_prevDay (y j : Nat) (h1 : 1 ≤ j) (h2 : j ≤ daysInYear y)
    (hy : 1 ≤ y) : nextDay (prevDay (y, j)) = (y, j) := by
  unfold nextDay prevDay
  by_cases hj : 1 < j
  · rw [if_pos hj]
    simp only
    rw [if_pos (by omega : j - 1 < daysInYear y)]
    rw [Prod.mk.injEq]
    omega
  · rw [if_neg hj]
    simp only
    rw [if_neg (by omega : ¬daysInYear (y - 1) < daysInYear (y - 1))]
    rw [Prod.mk.injEq]
    omega

/-- Going forward one day and then back one day is the identity on valid
dates. -/
theorem prevDay_nextDay (y j : Nat) (h1 : 1 ≤ j) (h2 : j ≤ daysInYear y) :
    prevDay (nextDay (y, j)) = (y, j) := by
  have hpos := daysInYear_pos y
  unfold nextDay prevDay
  by_cases hj : j < daysInYear y
  · rw [if_pos hj]
    simp only
    rw [if_pos (by omega : 1 < j + 1)]
    rw [Prod.mk.injEq]
    omega
  · rw [if_neg hj]
    simp only
    rw [if_neg (by omega : ¬1 < 1)]
    rw [Prod.mk.injEq, Nat.add_sub_cancel]
    omega

/-- Claim C7: for every valid stream identity (julian day within the year,
4-digit year), shifting one day backward and then one day forward — and the
other way round — returns the original identity, across month and year
boundaries, and hence rebuilds the same full path. -/
theorem C7_shift_roundtrip (st : ArchiveStructure)
    (extend : List Char → List Char → Option (List Char)) (root : List Char)
    (s : StreamStats) (h1 : 1 ≤ s.jday) (h2 : s.jday ≤ daysInYear s.year)
    (h3 : 1000 ≤ s.year) (h4 : s.year ≤ 9998) :
    _getNextFileStats (_getNextFileStats s (-1)) 1 = s ∧
    _getNextFileStats (_getNextFileStats s 1) (-1) = s ∧
    _getFileDirectory st extend root
        (renderStats (_getNextFileStats (_getNextFileStats s (-1)) 1)) =
      _getFileDirectory st extend root (renderStats s) ∧
    _getFileDirectory st extend root
        (renderStats (_getNextFileStats (_getNextFileStats s 1) (-1))) =
      _getFileDirectory st extend root (renderStats s) := by
  obtain ⟨net, sta, loc, cha, dt, y, j⟩ := s
  simp only at h1 h2 h3 h4
  have hback : _getNextFileStats
      (_getNextFileStats ⟨net, sta, loc, cha, dt, y, j⟩ (-1)) 1
      = ⟨net, sta, loc, cha, dt, y, j⟩ := by
    show (⟨net, sta, loc, cha, dt, (nextDay (prevDay (y, j))).1,
        (nextDay (prevDay (y, j))).2⟩ : StreamStats)
      = ⟨net, sta, loc, cha, dt, y, j⟩
    rw [nextDay_prevDay y j h1 h2 (by omega)]
  have hforth : _getNextFileStats
      (_getNextFileStats ⟨net, sta, loc, cha, dt, y, j⟩ 1) (-1)
      = ⟨net, sta, loc, cha, dt, y, j⟩ := by
    show (⟨net, sta, loc, cha, dt, (prevDay (nextDay (y, j))).1,
        (prevDay (nextDay (y, j))).2⟩ : StreamStats)
      = ⟨net, sta, loc, cha, dt, y, j⟩
    rw [prevDay_nextDay y j h1 h2]
  exact ⟨hback, hforth, by rw [hback], by rw [hforth]⟩

/-- Witness for C7: January 1st 2024, whose backward shift crosses into
December 2023. -/
theorem C7_shift_roundtrip_witness :
    (1 ≤ sampleStats.jday ∧ sampleStats.jday ≤ daysInYear sampleStats.year ∧
      1000 ≤ sampleStats.year ∧ sampleStats.year ≤ 9998) ∧
    _getNextFileStats (_getNextFileStats sampleStats (-1)) 1 = sampleStats ∧
    _getNextFileStats (_getNextFileStats sampleStats 1) (-1) = sampleStats :=
  ⟨⟨by decide, by decide, by decide, by decide⟩,
    (C7_shift_roundtrip .SDS (fun _ _ => some []) ("root").data sampleStats
        (by decide) (by decide) (by decide) (by decide)).1,
    (C7_shift_roundtrip .SDS (fun _ _ => some []) ("root").data sampleStats
        (by decide) (by decide) (by decide) (by decide)).2.1⟩

end WFCatalog
